import Mathlib

/-!
Verification development for the BE-AILearningApp assessment backend.

The definitions below are a shallow embedding of the Python sources:
  * `app/utils/experience_based_questions.py` (experience parsing, per-difficulty
    allocation),
  * `app/services/question_generator.py` (the unified generator, its quality gate
    and RAG/LLM fallback logic),
  * `app/api/test_sessions.py` (session submit / complete / results handlers),
  * `app/api/questionset_tests.py` (batch answer submission and grading),
  * `app/core/tasks/question_generation.py` (generation job status tracking),
  * `app/db/models.py` (row shapes and the uniqueness constraints).

Machine-level conventions: Python `int` is modelled by `Int` (unbounded in
Python), Python floats by `ℚ` with `round`'s banker's rounding modelled
explicitly, `datetime` values by an integer timeline, fallible code by
`Option`/`Except`, and database handlers by explicit state passing over a
record of table contents.
-/

namespace AILearn

/-! ## Python primitive semantics -/

/-- Characters Python's `str.strip()` / `int()` treat as surrounding
whitespace (the ASCII ones; this development never feeds exotic Unicode
whitespace to them). -/
def pyWs (c : Char) : Bool :=
  c = ' ' || c = '\t' || c = '\n' || c = '\r' || c = '\x0b' || c = '\x0c'

/-- `str.strip()` on the character list. -/
def pyStripL (l : List Char) : List Char :=
  ((l.dropWhile pyWs).reverse.dropWhile pyWs).reverse

/-- `str.strip()`. -/
def pyStrip (s : String) : String := ⟨pyStripL s.data⟩

/-- `str.lower()` (ASCII case folding suffices here). -/
def pyLower (s : String) : String := ⟨s.data.map Char.toLower⟩

/-- `s in`-style membership of a character. -/
def pyContainsChar (s : String) (c : Char) : Bool := s.data.contains c

/-- Whether `pat` is an initial segment of `l`. -/
def leadsWith : List Char → List Char → Bool
  | [], _ => true
  | _ :: _, [] => false
  | p :: ps, c :: cs => p == c && leadsWith ps cs

/-- Fuel-driven core of `str.replace(pat, repl)`: scan left to right, replace
non-overlapping occurrences.  The fuel is the input length, enough for every
step to consume at least one character (patterns here are nonempty). -/
def replaceFuel (pat repl : List Char) : Nat → List Char → List Char
  | 0, l => l
  | _ + 1, [] => []
  | fuel + 1, c :: cs =>
      if leadsWith pat (c :: cs) then
        repl ++ replaceFuel pat repl fuel (cs.drop (pat.length - 1))
      else c :: replaceFuel pat repl fuel cs

/-- `str.replace(pat, repl)` for a nonempty pattern. -/
def pyReplace (s pat repl : String) : String :=
  ⟨replaceFuel pat.data repl.data s.data.length s.data⟩

/-- Fuel-driven core of `str.split(sep)` for a nonempty separator. -/
def splitFuel (sep : List Char) : Nat → List Char → List Char → List (List Char)
  | 0, acc, l => [acc.reverse ++ l]
  | _ + 1, acc, [] => [acc.reverse]
  | fuel + 1, acc, c :: cs =>
      if leadsWith sep (c :: cs) then
        acc.reverse :: splitFuel sep fuel [] (cs.drop (sep.length - 1))
      else splitFuel sep fuel (c :: acc) cs

/-- `str.split(sep)` for a nonempty separator (keeps empty pieces, exactly as
Python does). -/
def pySplit (s sep : String) : List String :=
  (splitFuel sep.data s.data.length [] s.data).map (fun l => ⟨l⟩)

/-- Python slicing `s[:n]` and `len(s)` on character lists. -/
def pyTake (s : String) (n : Nat) : String := ⟨s.data.take n⟩

/-- `len(s)` in characters. -/
def pyLen (s : String) : Nat := s.data.length

/-- Value of a digit run with Python's underscore rule (an underscore may only
appear between two digits), scanning after the first digit.  Mirrors the
accepted tail of a CPython base-10 integer literal. -/
def digitsCore : List Char → Nat → Option Nat
  | [], acc => some acc
  | '_' :: c :: rest, acc =>
      if c.isDigit then digitsCore rest (acc * 10 + (c.toNat - 48)) else none
  | c :: rest, acc =>
      if c.isDigit then digitsCore rest (acc * 10 + (c.toNat - 48)) else none

/-- Value of a nonempty digit run (first char must be a digit). -/
def digitsVal : List Char → Option Nat
  | [] => none
  | c :: rest => if c.isDigit then digitsCore rest (c.toNat - 48) else none

/-- Python's `int(s)` on a base-10 string: strip surrounding whitespace, an
optional single sign, then digits (underscores allowed only between digits).
`none` models the `ValueError` branch. -/
def pyInt (s : String) : Option Int :=
  match (pyStrip s).data with
  | [] => none
  | c :: rest =>
      if c = '-' then (digitsVal rest).map (fun n => -(n : Int))
      else if c = '+' then (digitsVal rest).map (fun n => (n : Int))
      else (digitsVal (c :: rest)).map (fun n => (n : Int))

/-- Python's `round(x)` (banker's rounding / round-half-to-even) on an exact
rational. -/
def pyRound (q : ℚ) : Int :=
  if q - (⌊q⌋ : ℚ) < 1/2 then ⌊q⌋
  else if 1/2 < q - (⌊q⌋ : ℚ) then ⌊q⌋ + 1
  else if ⌊q⌋ % 2 = 0 then ⌊q⌋ else ⌊q⌋ + 1

/-! ## `app/utils/experience_based_questions.py` -/

/-- The cleaning prefix of `parse_experience_years`:
`experience_str.lower().replace("years", "").replace("year", "").strip()`. -/
def cleanedExperience (s : String) : String :=
  pyStrip (pyReplace (pyReplace (pyLower s) "years" "") "year" "")

/-- `parse_experience_years` translated line by line: lowercase, drop
`"years"`/`"year"`, strip; a string containing `'+'` parses the string with all
`'+'` removed; a string containing `'-'` splits on `'-'` and returns the floor
midpoint of the first two parts; otherwise a plain `int(...)`; every
`ValueError`/`IndexError` yields the default `5`. -/
def parse_experience_years (s : String) : Int :=
  let clean := cleanedExperience s
  if pyContainsChar clean '+' then
    match pyInt (pyStrip (pyReplace clean "+" "")) with
    | some n => n
    | none => 5
  else if pyContainsChar clean '-' then
    match pySplit clean "-" with
    | p0 :: p1 :: _ =>
        match pyInt (pyStrip p0), pyInt (pyStrip p1) with
        | some a, some b => Int.fdiv (a + b) 2
        | _, _ => 5
    | _ => 5
  else
    match pyInt (pyStrip clean) with
    | some n => n
    | none => 5

/-- The `difficulty_distribution` mapping restricted to the three keys the
allocator reads (`dict.get(difficulty, 0.0)` makes any other key irrelevant). -/
structure DifficultyDistribution where
  easy : ℚ
  medium : ℚ
  hard : ℚ

/-- The returned `{easy, medium, hard}` counts. -/
structure DifficultyCounts where
  easy : Int
  medium : Int
  hard : Int

/-- `calculate_question_count_per_difficulty`: iterate `["easy", "medium",
"hard"]`; every bucket except the last gets `round(total * proportion)` and is
subtracted from the running remainder; the last bucket gets the remainder. -/
def calculate_question_count_per_difficulty
    (total : Int) (dist : DifficultyDistribution) : DifficultyCounts :=
  let e := pyRound ((total : ℚ) * dist.easy)
  let m := pyRound ((total : ℚ) * dist.medium)
  { easy := e, medium := m, hard := total - e - m }

/-! ## JSON values and Python dict semantics

`_parse_llm_output` hands the orchestrator a decoded JSON object; `_basic_qc`
then inspects it with Python dict operations and truthiness.  We model decoded
JSON values explicitly. -/

inductive JVal where
  | jnull
  | jbool (b : Bool)
  | jnum (q : ℚ)
  | jstr (s : String)
  | jarr (xs : List JVal)
  | jobj (fields : List (String × JVal))
  deriving BEq

/-- A decoded JSON object: the association list backing a Python dict (keys are
unique in any dict produced by `json.loads`). -/
abbrev PyDict := List (String × JVal)

/-- Python truthiness of a decoded JSON value (`None`, `False`, `0`, `""`,
`[]`, `{}` are falsy). -/
def pyTruthy : JVal → Bool
  | .jnull => false
  | .jbool b => b
  | .jnum q => decide (q ≠ 0)
  | .jstr s => decide (s ≠ "")
  | .jarr xs => !xs.isEmpty
  | .jobj fs => !fs.isEmpty

/-- `d.get(k)`: first binding of `k`, `None` when absent. -/
def dictGet (d : PyDict) (k : String) : Option JVal :=
  (d.find? (fun p => p.1 = k)).map Prod.snd

/-- Python's `set(keys) == set(target)` on key lists. -/
def sameKeySet (ks target : List String) : Bool :=
  ks.all (fun k => target.contains k) && target.all (fun k => ks.contains k)

/-! ## `app/services/question_generator.py` -/

/-- Python's `item.get("options") or {}`, shared by the quality gate and the
persist call sites (`options=parsed.get("options") or {}`). -/
def qcOptions (item : PyDict) : JVal :=
  match dictGet item "options" with
  | some v => if pyTruthy v then v else .jobj []
  | none => .jobj []

/-- `_basic_qc(item)`:
`question_text` must be a truthy string whose strip is nonempty; `options`
(after Python's `item.get("options") or {}`) must be a dict whose key set is
exactly `{A, B, C, D}`; `correct_answer` must be one of those four labels. -/
def basic_qc (item : PyDict) : Bool :=
  (match dictGet item "question_text" with
   | some (.jstr s) => decide (pyStrip s ≠ "")
   | _ => false)
  && (match qcOptions item with
      | .jobj fs => sameKeySet (fs.map Prod.fst) ["A", "B", "C", "D"]
      | _ => false)
  && (match dictGet item "correct_answer" with
      | some (.jstr s) => decide (s = "A" ∨ s = "B" ∨ s = "C" ∨ s = "D")
      | _ => false)

/-- A retrieval hit: the snippet dict and the score slot of the `(hit, score)`
tuple.  The score is `some q` exactly when `isinstance(score, (int, float))`
holds, `none` for `None` or non-numeric scores. -/
abbrev RetrievalHit := PyDict × Option ℚ

/-- `s[0].get("meta", {}).get("doc_id")` (the `meta` value of a snippet dict is
an object whenever present). -/
def snippetDocId (s : PyDict) : Option JVal :=
  match dictGet s "meta" with
  | some (.jobj m) => dictGet m "doc_id"
  | _ => none

/-- The `source_meta` dict attached to a persisted generated question:
either `{"snippets": ids, "assessment_id": aid, "top_score": score}` for a
grounded item or `{"fallback": True, "assessment_id": aid}` for the per-item
LLM fallback. -/
inductive SourceMeta where
  | ragMeta (snippetIds : List (Option JVal)) (assessmentId : Option String)
      (topScore : Option ℚ)
  | llmFallback (assessmentId : Option String)
  deriving BEq

/-- Modelled from the spec: the persisted `Question` row as written by the
generator.  The `source_type`/`source_meta`/`quality_score` columns are added
by migration `20260119_002_add_question_source_meta.py` and set by
`question_generator.py`; the ORM class in `src/BE/app/db/models.py` predates
that migration, so the row shape here follows the migration and the
generator's call sites (spec §3 QuestionItem provenance). -/
structure GenRow where
  questionText : JVal
  options : JVal
  correctAnswer : Option JVal
  jdId : Option String
  sourceType : Option String
  sourceMeta : Option SourceMeta
  deriving BEq

/-- Python truthiness of the optional `assessment_id` string
(`assessment_id if assessment_id else None`). -/
def pyOptStr : Option String → Option String
  | some a => if a = "" then none else some a
  | none => none

/-- Building the `Question(...)` keyword arguments shared by every persist
site: `question_text=parsed["question_text"]`,
`options=parsed.get("options") or {}`,
`correct_answer=parsed.get("correct_answer")`,
`jd_id=assessment_id if assessment_id else None`, plus the provenance fields
passed (or omitted) at that site. -/
def persistRow (parsed : PyDict) (aid : Option String)
    (st : Option String) (sm : Option SourceMeta) : GenRow :=
  { questionText := (dictGet parsed "question_text").getD .jnull
    options := qcOptions parsed
    correctAnswer := dictGet parsed "correct_answer"
    jdId := pyOptStr aid
    sourceType := st
    sourceMeta := sm }

/-- Environment for one iteration of the RAG loop: what `query_text` returned
(an exception is already folded to `[]` by the `except` branch) and what
`_parse_llm_output(_call_llm prompt)` produced for this item (`none` covers
both an unparseable reply and a reply missing a required key). -/
structure RagItemEnv where
  snippets : List RetrievalHit
  parsed : Option PyDict

/-- The scope filter of the RAG loop:
`if assessment_id and snippets: snippets = [s for s in snippets if
s[0].get("meta", {}).get("doc_id") == assessment_id]`. -/
def scopedSnippets (aid : Option String) (snips : List RetrievalHit) :
    List RetrievalHit :=
  match aid with
  | some a =>
      if (a != "") && !snips.isEmpty then
        snips.filter (fun s => snippetDocId s.1 == some (.jstr a))
      else snips
  | none => snips

/-- `top_score`: maximum of the numeric scores among the (scoped) snippets,
`None` when there is none. -/
def topScoreOf (snips : List RetrievalHit) : Option ℚ :=
  (snips.filterMap Prod.snd).max?

/-- The emptying test
`if min_retrieval and (top_score is None or top_score < min_retrieval)`. -/
def retrievalBelowMin (minRetrieval : ℚ) (ts : Option ℚ) : Bool :=
  decide (minRetrieval ≠ 0) &&
    (match ts with
     | none => true
     | some q => decide (q < minRetrieval))

/-- One iteration of the RAG loop of `generate_questions`: scope-filter the
snippets, compute the top score, drop the snippets when the threshold test
fails, choose grounded-RAG or LLM-fallback provenance, then apply the quality
gate (`if not parsed or not _basic_qc(parsed): continue`) and persist. -/
def ragGenerateItem (aid : Option String) (minRetrieval : ℚ)
    (env : RagItemEnv) : Option GenRow :=
  let snips := scopedSnippets aid env.snippets
  let ts := topScoreOf snips
  let snips := if retrievalBelowMin minRetrieval ts then [] else snips
  let stMeta : String × SourceMeta :=
    if !snips.isEmpty then
      ("rag", .ragMeta (snips.map (fun s => dictGet s.1 "id")) aid ts)
    else
      ("llm", .llmFallback aid)
  match env.parsed with
  | none => none
  | some d =>
      if !d.isEmpty && basic_qc d then
        some (persistRow d aid (some stMeta.1) (some stMeta.2))
      else none

/-- One iteration of a pure-LLM loop (both `mode == "llm"` and the trailing
`n_llm` loop of mix mode): parse, gate, persist with no provenance columns. -/
def llmGenerateItem (aid : Option String) (parsed : Option PyDict) :
    Option GenRow :=
  match parsed with
  | none => none
  | some d => if !d.isEmpty && basic_qc d then some (persistRow d aid none none) else none

/-- Collaborator outputs for a whole invocation: one `RagItemEnv` per RAG-loop
iteration and one parse result per LLM-loop iteration, consumed positionally. -/
structure GenEnv where
  ragItems : List RagItemEnv
  llmParsed : List (Option PyDict)

/-- `n_rag` of `generate_questions`: `count` unless mix mode, where it is
`max(0, round(count * (rag_pct / 100.0)))`. -/
def nRagOf (count : Nat) (mode : String) (ragPct : Int) : Int :=
  if mode = "mix" then max 0 (pyRound ((count : ℚ) * ((ragPct : ℚ) / 100)))
  else (count : Int)

/-- `generate_questions(topic, assessment_id, count, mode, rag_pct,
min_retrieval)` with persistence modelled as the returned list of created
rows: `mode == "llm"` runs `count` LLM iterations; otherwise `n_rag` RAG
iterations followed by `n_llm = count - n_rag` LLM iterations (`n_llm = 0`
outside mix mode). -/
def generate_questions (aid : Option String) (count : Nat) (mode : String)
    (ragPct : Int) (minRetrieval : ℚ) (env : GenEnv) : List GenRow :=
  if mode = "llm" then
    (env.llmParsed.take count).filterMap (llmGenerateItem aid)
  else
    let nRag := nRagOf count mode ragPct
    let nLlm : Int := if mode = "mix" then (count : Int) - nRag else 0
    (env.ragItems.take nRag.toNat).filterMap (ragGenerateItem aid minRetrieval)
      ++ (env.llmParsed.take nLlm.toNat).filterMap (llmGenerateItem aid)

/-! ## `app/db/models.py`: row shapes and database state

Timestamps are points on an integer timeline; `timedelta(hours=h)` adds the
corresponding number of ticks, carried around as an opaque delay value. -/

/-- A `questions` row (the columns the session/test handlers read).  `options`
is the JSON dict column `{"A": text, ...}`, which for coding/architecture
items also carries the embedded `"type"` tag. -/
structure QuestionRow where
  qid : Int
  questionSetId : Option String
  jdIdQ : Option String
  questionText : String
  options : PyDict
  correctAnswer : String

/-- A `test_sessions` row (the columns the handlers read and write). -/
structure SessionRow where
  sessionId : String
  questionSetId : Option String
  jdIdS : Option String
  userId : Option Int
  startedAt : Int
  completedAt : Option Int
  durationSeconds : Option Int
  isCompleted : Bool
  isScored : Bool
  scoreReleasedAt : Option Int
  totalQuestions : Int
  correctAnswersN : Int
  scorePercentage : Option ℚ

/-- An `answers` row.  The table carries
`UniqueConstraint("session_id", "question_id")`. -/
structure AnswerRow where
  sessionId : String
  questionId : Int
  selectedAnswer : String
  isCorrect : Option Bool
  deriving DecidableEq

/-- A `question_sets` row (the columns `questionset_tests.py` reads). -/
structure QuestionSetRow where
  questionSetId : String
  skill : String
  level : String
  totalQuestions : Int

/-- The database state the session endpoints touch. -/
structure DB where
  sessions : List SessionRow
  questionSets : List QuestionSetRow
  questions : List QuestionRow
  answers : List AnswerRow

/-- The `answers` uniqueness constraint as a predicate on table contents: no
two rows share a `(session_id, question_id)` pair. -/
def uniquePairs (l : List AnswerRow) : Prop :=
  l.Pairwise (fun a b => ¬(a.sessionId = b.sessionId ∧ a.questionId = b.questionId))

/-- A batch insert under the uniqueness constraint succeeds exactly when the
new rows collide neither with each other nor with existing rows (otherwise the
`commit` raises `IntegrityError` and the transaction is rolled back). -/
def insertOk (existing new : List AnswerRow) : Prop :=
  uniquePairs new ∧
    ∀ a ∈ new, ∀ b ∈ existing, ¬(a.sessionId = b.sessionId ∧ a.questionId = b.questionId)

instance : DecidablePred uniquePairs := fun l =>
  inferInstanceAs (Decidable (l.Pairwise _))

instance (existing new : List AnswerRow) : Decidable (insertOk existing new) :=
  inferInstanceAs (Decidable (_ ∧ _))

/-- Replace the first row accepted by `p` (the ORM mutates the single row a
unique-key query returned). -/
def replaceFirst {α : Type} (p : α → Bool) (f : α → α) : List α → List α
  | [] => []
  | x :: xs => if p x then f x :: xs else x :: replaceFirst p f xs

/-! ## `app/api/test_sessions.py` -/

/-- `select(TestSession).where(session_id == sid, user_id == uid)`
with `scalar_one_or_none()`. -/
def findSessionFor (db : DB) (sid : String) (uid : Int) : Option SessionRow :=
  db.sessions.find? (fun s => s.sessionId == sid && s.userId == some uid)

/-- Request body of `POST /test/sessions/{session_id}/answers`. -/
structure SubmitAnswerRequest where
  questionId : Int
  selectedAnswer : String

/-- The success body of `submit_answer`:
`{"status": "success", "message": "Answer submitted successfully",
"question_id": ...}` — deliberately silent about correctness. -/
structure SubmitAnswerResp where
  statusStr : String
  message : String
  questionId : Int
  deriving DecidableEq

/-- Outcome of a handler: an `HTTPException(code, detail)` or a success body. -/
inductive SubmitOutcome where
  | err (code : Nat) (detail : String)
  | ok (resp : SubmitAnswerResp)
  deriving DecidableEq

/-- `submit_answer`: verify session ownership, reject a completed session,
reject an already-answered question, validate the question and the option
label, grade silently, insert the `Answer` row, and answer with the fixed
success body. -/
def submit_answer (db : DB) (uid : Int) (sid : String)
    (req : SubmitAnswerRequest) : SubmitOutcome × DB :=
  match findSessionFor db sid uid with
  | none => (.err 404 "Session not found", db)
  | some s =>
    if s.isCompleted then (.err 400 "Session already completed", db)
    else
      match db.answers.find?
          (fun a => a.sessionId == sid && a.questionId == req.questionId) with
      | some _ => (.err 400 "Question already answered", db)
      | none =>
        match db.questions.find? (fun q => q.qid == req.questionId) with
        | none => (.err 404 "Question not found", db)
        | some q =>
          if (q.options.map Prod.fst).contains req.selectedAnswer then
            let isCorrect := req.selectedAnswer == q.correctAnswer
            let row : AnswerRow :=
              { sessionId := sid, questionId := req.questionId
                selectedAnswer := req.selectedAnswer, isCorrect := some isCorrect }
            (.ok { statusStr := "success", message := "Answer submitted successfully"
                   questionId := req.questionId },
             { db with answers := db.answers ++ [row] })
          else (.err 400 "Invalid answer", db)

/-- Success body of `complete_test_session` (`CompleteTestResponse`). -/
structure CompleteTestResp where
  sessionId : String
  statusStr : String
  totalQuestions : Int
  answeredQuestions : Int
  scoreWillReleaseAt : Int
  deriving DecidableEq

/-- Outcome of `complete_test_session`. -/
inductive CompleteOutcome where
  | err (code : Nat) (detail : String)
  | ok (resp : CompleteTestResp)
  deriving DecidableEq

/-- `complete_test_session`: reject missing or already-completed sessions;
otherwise count the correct `Answer` rows
(`sum(1 for a in answers if a.is_correct)`), compute
`score_percentage = correct / total * 100` guarding `total_questions > 0`,
stamp the completion fields on the session row, and schedule the score release
`delay` ticks (`SCORE_RELEASE_DELAY_HOURS`) after completion. -/
def complete_test_session (delay now : Int) (db : DB) (uid : Int)
    (sid : String) : CompleteOutcome × DB :=
  match findSessionFor db sid uid with
  | none => (.err 404 "Session not found", db)
  | some s =>
    if s.isCompleted then (.err 400 "Session already completed", db)
    else
      let answers := db.answers.filter (fun a => a.sessionId == sid)
      let correctCount : Int :=
        ((answers.filter (fun a => a.isCorrect == some true)).length : Int)
      let scorePct : ℚ :=
        if s.totalQuestions > 0 then
          (correctCount : ℚ) / (s.totalQuestions : ℚ) * 100
        else 0
      let s' : SessionRow :=
        { s with isCompleted := true, completedAt := some now
                 durationSeconds := some (now - s.startedAt)
                 correctAnswersN := correctCount
                 scorePercentage := some scorePct }
      let newSessions :=
        replaceFirst (fun x => x.sessionId == sid && x.userId == some uid)
          (fun _ => s') db.sessions
      (.ok { sessionId := sid, statusStr := "completed"
             totalQuestions := s.totalQuestions
             answeredQuestions := (answers.length : Int)
             scoreWillReleaseAt := now + delay },
       { db with sessions := newSessions })

/-- One entry of the `detailed_results` list of `get_test_results`. -/
structure DetailedItem where
  questionId : Int
  questionText : String
  yourAnswer : String
  correctAnswer : String
  isCorrect : Option Bool
  options : PyDict

/-- The full-results body of `get_test_results`. -/
structure ResultsBody where
  sessionId : String
  scorePercentage : Option ℚ
  correctAnswersN : Int
  totalQuestions : Int
  completedAt : Int
  scoreReleasedAtR : Int
  detailedResults : List DetailedItem

/-- Outcome of `get_test_results`: an HTTP error, the 403 "pending" payload
(`{"message", "completed_at", "estimated_release_at", "status"}` — carrying no
score field at all), the released results, or an uncaught Python error
(`None` arithmetic on a timestamp column). -/
inductive ResultsOutcome where
  | err (code : Nat) (detail : String)
  | pending (code : Nat) (message : String) (completedAt : Int)
      (estimatedReleaseAt : Int) (statusStr : String)
  | ok (body : ResultsBody)
  | pyError (msg : String)

/-- The score a results outcome exposes: only the released full body carries
one. -/
def outcomeScore : ResultsOutcome → Option ℚ
  | .ok body => body.scorePercentage
  | _ => none

/-- The `detailed_results` join:
`select(Answer, Question).join(Question, Answer.question_id == Question.id)
.where(Answer.session_id == session_id)`. -/
def detailedResultsFor (db : DB) (sid : String) : List DetailedItem :=
  (db.answers.filter (fun a => a.sessionId == sid)).filterMap (fun a =>
    (db.questions.find? (fun q => q.qid == a.questionId)).map (fun q =>
      { questionId := q.qid, questionText := q.questionText
        yourAnswer := a.selectedAnswer, correctAnswer := q.correctAnswer
        isCorrect := a.isCorrect, options := q.options }))

/-- `get_test_results`: 404 on unknown session, 400 before completion, the
403 pending payload with `estimated_release_at = completed_at +
SCORE_RELEASE_DELAY_HOURS` while `is_scored` is still false, and the full
detailed results once the score is released. -/
def get_test_results (delay : Int) (db : DB) (uid : Int) (sid : String) :
    ResultsOutcome :=
  match findSessionFor db sid uid with
  | none => .err 404 "Session not found"
  | some s =>
    if !s.isCompleted then .err 400 "Test not yet completed"
    else if !s.isScored then
      match s.completedAt with
      | none => .pyError "completed_at is None"
      | some t =>
        .pending 403 "Results not yet available" t (t + delay) "processing"
    else
      match s.completedAt, s.scoreReleasedAt with
      | some t, some r =>
        .ok { sessionId := sid, scorePercentage := s.scorePercentage
              correctAnswersN := s.correctAnswersN
              totalQuestions := s.totalQuestions
              completedAt := t, scoreReleasedAtR := r
              detailedResults := detailedResultsFor db sid }
      | _, _ => .pyError "isoformat on None"

/-! ## `app/api/questionset_tests.py` -/

/-- `resolve_question_type`: read the `"type"` tag embedded in the options
JSON; only `"coding"` and `"architecture"` count, everything else is `mcq`. -/
def resolve_question_type (q : QuestionRow) : String :=
  match dictGet q.options "type" with
  | some (.jstr t) => if t = "coding" || t = "architecture" then t else "mcq"
  | _ => "mcq"

/-- One submitted `(question_id, selected_answer)` pair of a batch request. -/
structure AnswerSubmit where
  questionId : Int
  selectedAnswer : String

/-- Body of `POST /questionset-tests/submit` (`SubmitAllAnswersRequest`). -/
structure SubmitAllAnswersRequest where
  sessionId : String
  answers : List AnswerSubmit

/-- `MAX_ANSWER_LEN`: answers are truncated to this many characters before
storage. -/
def MAX_ANSWER_LEN : Nat := 10000

/-- Per-answer processing of `submit_questionset_answers`: look the question
up, grade by resolved type (`NOT_ANSWERED` is accepted and never correct; an
MCQ answer must be an option label; a coding/architecture answer must be
nonempty and is never auto-graded correct), then normalize — strip and
truncate to `MAX_ANSWER_LEN` — into the `Answer` row to insert. -/
def processAnswer (questions : List QuestionRow) (sid : String)
    (sub : AnswerSubmit) : Except (Nat × String) AnswerRow :=
  match questions.find? (fun q => q.qid == sub.questionId) with
  | none => .error (400, "Question not found")
  | some q =>
    let qtype := resolve_question_type q
    let graded : Except (Nat × String) Bool :=
      if qtype = "mcq" then
        if sub.selectedAnswer = "NOT_ANSWERED" then .ok false
        else if (q.options.map Prod.fst).contains sub.selectedAnswer then
          .ok (sub.selectedAnswer == q.correctAnswer)
        else .error (400, "Invalid answer")
      else
        if sub.selectedAnswer = "NOT_ANSWERED" then .ok false
        else if pyStrip sub.selectedAnswer = "" then
          .error (400, "Answer cannot be empty")
        else .ok false
    graded.map (fun isCorrect =>
      let sv := pyStrip sub.selectedAnswer
      let sv := if pyLen sv > MAX_ANSWER_LEN then pyTake sv MAX_ANSWER_LEN else sv
      { sessionId := sid, questionId := sub.questionId
        selectedAnswer := sv, isCorrect := some isCorrect })

/-- Process a whole batch left to right, stopping at the first
`HTTPException`. -/
def processAnswers (questions : List QuestionRow) (sid : String) :
    List AnswerSubmit → Except (Nat × String) (List AnswerRow)
  | [] => .ok []
  | sub :: rest => do
      let row ← processAnswer questions sid sub
      let rows ← processAnswers questions sid rest
      pure (row :: rows)

/-- Outcome of the batch submit.  The success body
(`TestResultResponse`) is reduced to the fields the claims touch; `dbError`
models the `IntegrityError` the unique `(session_id, question_id)` constraint
raises at `commit`, which aborts the whole transaction. -/
inductive BatchOutcome where
  | err (code : Nat) (detail : String)
  | dbError
  | ok (correctCount : Int) (scorePct : ℚ)

/-- `submit_questionset_answers`: validate session ownership, completion
state and question-set linkage, load the set's questions, grade every
submitted answer, then in one transaction insert the `Answer` rows and
finalize the session (`is_completed`, `completed_at`, `duration_seconds`,
`correct_answers`, `score_percentage`, `is_scored`, `score_released_at`).
A uniqueness violation among the inserted rows rolls the whole transaction
back. -/
def submit_questionset_answers (now : Int) (db : DB) (uid : Int)
    (req : SubmitAllAnswersRequest) : BatchOutcome × DB :=
  match findSessionFor db req.sessionId uid with
  | none => (.err 404 "Test session not found", db)
  | some s =>
    if s.isCompleted then (.err 400 "Test session already completed", db)
    else
      match s.questionSetId with
      | none => (.err 400 "This endpoint is only for QuestionSet-based tests", db)
      | some qsId =>
        if qsId = "" then
          (.err 400 "This endpoint is only for QuestionSet-based tests", db)
        else
          match db.questionSets.find? (fun qs => qs.questionSetId == qsId) with
          | none => (.err 404 "QuestionSet not found", db)
          | some _ =>
            match processAnswers
                (db.questions.filter (fun q => q.questionSetId == some qsId))
                req.sessionId req.answers with
            | .error e => (.err e.1 e.2, db)
            | .ok records =>
              if insertOk db.answers records then
                let correctCount : Int :=
                  ((records.filter (fun r => r.isCorrect == some true)).length : Int)
                let scorePct : ℚ :=
                  if s.totalQuestions > 0 then
                    (correctCount : ℚ) / (s.totalQuestions : ℚ) * 100
                  else 0
                let s' : SessionRow :=
                  { s with isCompleted := true, completedAt := some now
                           durationSeconds := some (now - s.startedAt)
                           correctAnswersN := correctCount
                           scorePercentage := some scorePct
                           isScored := true, scoreReleasedAt := some now }
                let newSessions :=
                  replaceFirst
                    (fun x => x.sessionId == req.sessionId && x.userId == some uid)
                    (fun _ => s') db.sessions
                (.ok correctCount scorePct,
                 { db with sessions := newSessions
                           answers := db.answers ++ records })
              else (.dbError, db)

/-! ## `app/core/tasks/question_generation.py`: job status tracking -/

/-- The `result` JSON column of a `celery_tasks` row: `{"created": ids}` from
`run_question_generation`, `{"doc_id": ..., "status": "indexed"}` from
`index_question_document_task`. -/
inductive TaskResult where
  | createdIds (ids : List Int)
  | indexedDoc (docId : String)
  deriving DecidableEq

/-- A `celery_tasks` row; `task_id` carries a unique constraint. -/
structure CeleryTaskRow where
  taskId : String
  taskName : String
  statusStr : String
  result : Option TaskResult
  errorMsg : Option String
  relatedType : Option String
  deriving DecidableEq

/-- The `celery_tasks` table. -/
structure TaskDB where
  tasks : List CeleryTaskRow
  deriving DecidableEq

/-- Update the first row with the given `task_id`, if any
(`.one_or_none()` followed by a conditional mutate-and-commit). -/
def setTaskIfExists (db : TaskDB) (taskId : String)
    (f : CeleryTaskRow → CeleryTaskRow) : TaskDB :=
  { tasks := replaceFirst (fun ct => ct.taskId == taskId) f db.tasks }

/-- `run_question_generation`: insert a fresh STARTED `CeleryTask` record
(the unique `task_id` constraint makes the insert fail if a record for this
`task_id` already exists, aborting the task before any status change), run the
generator, then mark the record SUCCESS with the created ids or FAILURE with
the error string. -/
def run_question_generation (db : TaskDB) (taskId : String)
    (genOutcome : Except String (List Int)) :
    Except String (List Int) × TaskDB :=
  if db.tasks.any (fun ct => ct.taskId == taskId) then
    (.error "IntegrityError: duplicate task_id", db)
  else
    let db1 : TaskDB :=
      { tasks := db.tasks ++
          [{ taskId := taskId, taskName := "run_question_generation"
             statusStr := "STARTED", result := none, errorMsg := none
             relatedType := some "question_generation" }] }
    match genOutcome with
    | .ok ids =>
        (.ok ids,
         setTaskIfExists db1 taskId (fun ct =>
           { ct with statusStr := "SUCCESS", result := some (.createdIds ids) }))
    | .error e =>
        (.error e,
         setTaskIfExists db1 taskId (fun ct =>
           { ct with statusStr := "FAILURE", errorMsg := some e }))

/-- The opening step of `index_question_document_task`: whatever status the
row currently has — including a terminal SUCCESS or FAILURE — is overwritten
with STARTED whenever a row for this `task_id` exists. -/
def index_task_start (db : TaskDB) (taskId : String) : TaskDB :=
  setTaskIfExists db taskId (fun ct => { ct with statusStr := "STARTED" })

/-- The closing step of `index_question_document_task`: mark SUCCESS with the
indexing result, or FAILURE with the error string. -/
def index_task_finish (db : TaskDB) (taskId docId : String)
    (outcome : Except String Unit) : TaskDB :=
  match outcome with
  | .ok _ =>
      setTaskIfExists db taskId (fun ct =>
        { ct with statusStr := "SUCCESS", result := some (.indexedDoc docId) })
  | .error e =>
      setTaskIfExists db taskId (fun ct =>
        { ct with statusStr := "FAILURE", errorMsg := some e })

/-- A full (re-)execution of `index_question_document_task` for a `task_id`:
the unconditional STARTED stamp followed by the terminal stamp. -/
def index_question_document_task (db : TaskDB) (taskId docId : String)
    (outcome : Except String Unit) : TaskDB :=
  index_task_finish (index_task_start db taskId) taskId docId outcome

/-! ## Shared lemmas -/

theorem pyRound_ge_floor (q : ℚ) : ⌊q⌋ ≤ pyRound q := by
  unfold pyRound
  split
  · exact le_refl _
  · split
    · omega
    · split <;> omega

theorem pyRound_le_floor_add_one (q : ℚ) : pyRound q ≤ ⌊q⌋ + 1 := by
  unfold pyRound
  split
  · omega
  · split
    · omega
    · split <;> omega

theorem pyRound_nonneg (q : ℚ) (h : 0 ≤ q) : 0 ≤ pyRound q :=
  le_trans (Int.le_floor.mpr (by exact_mod_cast h)) (pyRound_ge_floor q)

theorem pyRound_le_int (q : ℚ) (n : Int) (h : q ≤ (n : ℚ)) : pyRound q ≤ n := by
  have hf : ⌊q⌋ ≤ n := by
    have h1 := Int.floor_mono h
    simpa using h1
  rcases lt_or_eq_of_le hf with hlt | heq
  · exact le_trans (pyRound_le_floor_add_one q) (by omega)
  · have hq : q = (n : ℚ) := le_antisymm h (heq ▸ Int.floor_le q)
    subst hq
    simp [pyRound, Int.floor_intCast]

/-! ## Claim C4 -/

/-- C4: for every `total_questions ≥ 0` and difficulty distribution summing to
approximately 1.0, `calculate_question_count_per_difficulty` handles the
buckets in the fixed order easy, medium, hard: easy and medium each get
`round(total × fraction)`, the last bucket (hard) gets the remaining count,
and the three counts sum exactly to `total_questions`. -/
theorem C4_allocation_sums_to_total (total : Int) (dist : DifficultyDistribution)
    (htotal : 0 ≤ total)
    (hlo : (99 : ℚ)/100 ≤ dist.easy + dist.medium + dist.hard)
    (hhi : dist.easy + dist.medium + dist.hard ≤ (101 : ℚ)/100) :
    (calculate_question_count_per_difficulty total dist).easy
        = pyRound ((total : ℚ) * dist.easy) ∧
    (calculate_question_count_per_difficulty total dist).medium
        = pyRound ((total : ℚ) * dist.medium) ∧
    (calculate_question_count_per_difficulty total dist).hard
        = total - pyRound ((total : ℚ) * dist.easy)
            - pyRound ((total : ℚ) * dist.medium) ∧
    (calculate_question_count_per_difficulty total dist).easy
      + (calculate_question_count_per_difficulty total dist).medium
      + (calculate_question_count_per_difficulty total dist).hard = total := by
  refine ⟨rfl, rfl, rfl, ?_⟩
  show pyRound _ + pyRound _ + (total - pyRound _ - pyRound _) = total
  ring

/-- Witness for C4 at the spec's own example: total 15, distribution
(0.2, 0.5, 0.3), where the counts come out as {3, 8, 4}. -/
theorem C4_allocation_sums_to_total_witness :
    ((0 : Int) ≤ 15 ∧ (99 : ℚ)/100 ≤ 1/5 + 1/2 + 3/10 ∧
      (1/5 + 1/2 + 3/10 : ℚ) ≤ (101 : ℚ)/100) ∧
    (calculate_question_count_per_difficulty 15 ⟨1/5, 1/2, 3/10⟩).easy
        = pyRound ((15 : ℚ) * (1/5)) ∧
    (calculate_question_count_per_difficulty 15 ⟨1/5, 1/2, 3/10⟩).medium
        = pyRound ((15 : ℚ) * (1/2)) ∧
    (calculate_question_count_per_difficulty 15 ⟨1/5, 1/2, 3/10⟩).hard
        = 15 - pyRound ((15 : ℚ) * (1/5)) - pyRound ((15 : ℚ) * (1/2)) ∧
    (calculate_question_count_per_difficulty 15 ⟨1/5, 1/2, 3/10⟩).easy
      + (calculate_question_count_per_difficulty 15 ⟨1/5, 1/2, 3/10⟩).medium
      + (calculate_question_count_per_difficulty 15 ⟨1/5, 1/2, 3/10⟩).hard = 15 :=
  ⟨⟨by decide, by norm_num, by norm_num⟩,
   C4_allocation_sums_to_total 15 ⟨1/5, 1/2, 3/10⟩ (by decide)
     (by norm_num) (by norm_num)⟩

/-! ## Claim C8 -/

/-- C8 counterexample: the claim says a string containing `"+"` yields the
integer *before* the `"+"`, which for `"1+2"` would be `1`; the code instead
deletes every `"+"` and parses the remainder, yielding `12`. -/
theorem C8_counterexample_plus_inside :
    parse_experience_years "1+2" = 12 ∧ parse_experience_years "1+2" ≠ 1 := by
  constructor <;> decide

/-- C8 (amended): the parser cleans the descriptor (lowercase, drop
"year"/"years" tokens, strip) and then applies, in order: a string containing
`'+'` yields the integer obtained by deleting every `'+'` (for a trailing
`'+'`, the integer before it); a hyphenated string takes the floor-division
midpoint `(a + b) // 2` of its first two hyphen-separated parts; otherwise it
is parsed as a plain integer; any parse failure yields 5 instead of an
exception.  In particular `parse("5-7") = 6`, `parse("12+ years") = 12`, and
`parse("garbage") = 5`. -/
theorem C8_parse_experience_rules (s : String) :
    parse_experience_years "5-7" = 6 ∧
    parse_experience_years "12+ years" = 12 ∧
    parse_experience_years "garbage" = 5 ∧
    (pyContainsChar (cleanedExperience s) '+' = true →
       parse_experience_years s =
         ((pyInt (pyStrip (pyReplace (cleanedExperience s) "+" ""))).getD 5)) ∧
    (pyContainsChar (cleanedExperience s) '+' = false →
     pyContainsChar (cleanedExperience s) '-' = true →
     ∀ p0 p1 rest, pySplit (cleanedExperience s) "-" = p0 :: p1 :: rest →
       ∀ a b, pyInt (pyStrip p0) = some a → pyInt (pyStrip p1) = some b →
         parse_experience_years s = Int.fdiv (a + b) 2) ∧
    (pyContainsChar (cleanedExperience s) '+' = false →
     pyContainsChar (cleanedExperience s) '-' = false →
       parse_experience_years s = (pyInt (pyStrip (cleanedExperience s))).getD 5) := by
  refine ⟨by decide, by decide, by decide, ?_, ?_, ?_⟩
  · intro hplus
    unfold parse_experience_years
    simp only [hplus, if_true]
    cases pyInt (pyStrip (pyReplace (cleanedExperience s) "+" "")) <;> rfl
  · intro hplus hminus p0 p1 rest hsplit a b ha hb
    unfold parse_experience_years
    simp only [hplus, hminus, if_false, if_true, Bool.false_eq_true]
    rw [hsplit]
    simp only [ha, hb]
  · intro hplus hminus
    unfold parse_experience_years
    simp only [hplus, hminus, if_false, Bool.false_eq_true]
    cases pyInt (pyStrip (cleanedExperience s)) <;> rfl

/-- Witness for C8 applying the rule theorem at `"10+"` and discharging the
`'+'`-rule hypothesis there. -/
theorem C8_parse_experience_rules_witness :
    pyContainsChar (cleanedExperience "10+") '+' = true ∧
    parse_experience_years "10+" =
      ((pyInt (pyStrip (pyReplace (cleanedExperience "10+") "+" ""))).getD 5) :=
  ⟨by decide, (C8_parse_experience_rules "10+").2.2.2.1 (by decide)⟩

/-! ## Claim C1 -/

/-- A `celery_tasks` row already in the terminal FAILURE state. -/
def terminalTaskRow : CeleryTaskRow :=
  { taskId := "t1", taskName := "index_question_document_task"
    statusStr := "FAILURE", result := none, errorMsg := some "boom"
    relatedType := none }

/-- C1 (code bug witnessed): a worker retry that re-runs
`index_question_document_task` for a `task_id` whose record is already
terminal (here FAILURE) first overwrites the status with STARTED — the status
moves backward — and, when the re-run indexing succeeds, leaves the record
SUCCESS: the terminal status is overwritten, not rejected or ignored.
(`run_question_generation` is protected by the unique `task_id` insert, shown
in the last conjunct: a re-run aborts and leaves the terminal row intact.) -/
theorem C1_terminal_status_overwritten :
    ((index_task_start { tasks := [terminalTaskRow] } "t1").tasks.map
        (fun c => c.statusStr) = ["STARTED"]) ∧
    ((index_question_document_task { tasks := [terminalTaskRow] } "t1" "doc1"
        (.ok ())).tasks.map (fun c => c.statusStr) = ["SUCCESS"]) ∧
    (run_question_generation { tasks := [terminalTaskRow] } "t1" (.ok [4]) =
      (.error "IntegrityError: duplicate task_id", { tasks := [terminalTaskRow] })) := by
  refine ⟨by decide, by decide, ?_⟩
  have : ({ tasks := [terminalTaskRow] } : TaskDB).tasks.any
      (fun ct => ct.taskId == "t1") = true := by decide
  simp [run_question_generation, this]

/-! ## Claim C2 -/

/-- C2: once a session's `is_completed` flag is true, submitting any answer
against it and completing it again are both rejected with the session-state
error, and the rejected handler hands back the database unchanged — so
`is_completed`, `completed_at`, `correct_answers`, `score_percentage` and the
session's `Answer` rows are all untouched. -/
theorem C2_completed_session_rejected (db : DB) (uid : Int) (sid : String)
    (req : SubmitAnswerRequest) (delay now : Int) (s : SessionRow)
    (hfind : findSessionFor db sid uid = some s)
    (hdone : s.isCompleted = true) :
    submit_answer db uid sid req = (.err 400 "Session already completed", db) ∧
    complete_test_session delay now db uid sid =
      (.err 400 "Session already completed", db) := by
  unfold submit_answer complete_test_session
  rw [hfind]
  simp [hdone]

/-- A completed session row used by concrete instantiations. -/
def doneSession : SessionRow :=
  { sessionId := "s1", questionSetId := some "qs1", jdIdS := none
    userId := some 7, startedAt := 0, completedAt := some 100
    durationSeconds := some 100, isCompleted := true, isScored := false
    scoreReleasedAt := none, totalQuestions := 2, correctAnswersN := 1
    scorePercentage := some 50 }

/-- A database holding only the completed session. -/
def doneDB : DB :=
  { sessions := [doneSession], questionSets := [], questions := [], answers := [] }

/-- Witness for C2 on the concrete completed session. -/
theorem C2_completed_session_rejected_witness :
    findSessionFor doneDB "s1" 7 = some doneSession ∧
    doneSession.isCompleted = true ∧
    (submit_answer doneDB 7 "s1" ⟨1, "A"⟩ =
        (.err 400 "Session already completed", doneDB) ∧
     complete_test_session 3600 200 doneDB 7 "s1" =
        (.err 400 "Session already completed", doneDB)) :=
  ⟨rfl, rfl,
   C2_completed_session_rejected doneDB 7 "s1" ⟨1, "A"⟩ 3600 200 doneSession rfl rfl⟩

/-! ## Claim C10 -/

/-- Inversion of a successful `submit_answer`: the body is the fixed success
dict with the echoed question id, while the stored row does carry the computed
correctness bit. -/
theorem submit_answer_ok_inv (db : DB) (uid : Int) (sid : String)
    (req : SubmitAnswerRequest) (r : SubmitAnswerResp) (db' : DB)
    (h : submit_answer db uid sid req = (.ok r, db')) :
    r = { statusStr := "success", message := "Answer submitted successfully"
          questionId := req.questionId } ∧
    ∃ b : Bool, db'.answers = db.answers ++
      [{ sessionId := sid, questionId := req.questionId
         selectedAnswer := req.selectedAnswer, isCorrect := some b }] := by
  unfold submit_answer at h
  split at h
  · exact absurd h (by simp)
  · split at h
    · exact absurd h (by simp)
    · split at h
      · exact absurd h (by simp)
      · split at h
        · exact absurd h (by simp)
        · split at h
          · rw [Prod.mk.injEq] at h
            obtain ⟨hr, hdb⟩ := h
            cases hr
            refine ⟨rfl, ?_⟩
            exact ⟨_, by rw [← hdb]⟩
          · exact absurd h (by simp)

/-- C10: the success body of `submit_answer` is a constant function of the
submitted question id — two accepted submissions for the same question produce
identical response bodies whether or not the selected answer matches the
stored correct answer, even though the correctness bit is computed and stored
in the inserted `Answer` row. -/
theorem C10_submit_response_hides_correctness
    (db1 db2 : DB) (uid1 uid2 : Int) (sid1 sid2 : String)
    (req1 req2 : SubmitAnswerRequest) (r1 r2 : SubmitAnswerResp)
    (db1' db2' : DB)
    (h1 : submit_answer db1 uid1 sid1 req1 = (.ok r1, db1'))
    (h2 : submit_answer db2 uid2 sid2 req2 = (.ok r2, db2'))
    (hq : req1.questionId = req2.questionId) :
    r1 = r2 ∧
    r1 = { statusStr := "success", message := "Answer submitted successfully"
           questionId := req1.questionId } ∧
    ∃ b : Bool, db1'.answers = db1.answers ++
      [{ sessionId := sid1, questionId := req1.questionId
         selectedAnswer := req1.selectedAnswer, isCorrect := some b }] := by
  obtain ⟨hr1, hb1⟩ := submit_answer_ok_inv db1 uid1 sid1 req1 r1 db1' h1
  obtain ⟨hr2, _⟩ := submit_answer_ok_inv db2 uid2 sid2 req2 r2 db2' h2
  refine ⟨?_, hr1, hb1⟩
  rw [hr1, hr2, hq]

/-- An in-progress session owned by user 7. -/
def openSession : SessionRow :=
  { sessionId := "s2", questionSetId := none, jdIdS := some "jd1"
    userId := some 7, startedAt := 0, completedAt := none
    durationSeconds := none, isCompleted := false, isScored := false
    scoreReleasedAt := none, totalQuestions := 1, correctAnswersN := 0
    scorePercentage := none }

/-- An MCQ question row with correct answer B. -/
def mcqQuestion : QuestionRow :=
  { qid := 31, questionSetId := none, jdIdQ := some "jd1"
    questionText := "Pick one"
    options := [("A", .jstr "first"), ("B", .jstr "second"),
                ("C", .jstr "third"), ("D", .jstr "fourth")]
    correctAnswer := "B" }

/-- A database with the open session and the MCQ question, no answers yet. -/
def openDB : DB :=
  { sessions := [openSession], questionSets := [], questions := [mcqQuestion]
    answers := [] }

/-- Witness for C10: submitting the correct answer "B" and the wrong answer
"A" against the same state yields literally identical success bodies. -/
theorem C10_submit_response_hides_correctness_witness :
    submit_answer openDB 7 "s2" ⟨31, "B"⟩ =
      (.ok { statusStr := "success", message := "Answer submitted successfully"
             questionId := 31 },
       { openDB with answers := [{ sessionId := "s2", questionId := 31
                                   selectedAnswer := "B", isCorrect := some true }] }) ∧
    submit_answer openDB 7 "s2" ⟨31, "A"⟩ =
      (.ok { statusStr := "success", message := "Answer submitted successfully"
             questionId := 31 },
       { openDB with answers := [{ sessionId := "s2", questionId := 31
                                   selectedAnswer := "A", isCorrect := some false }] }) ∧
    ({ statusStr := "success", message := "Answer submitted successfully"
       questionId := 31 } : SubmitAnswerResp) =
      { statusStr := "success", message := "Answer submitted successfully"
        questionId := 31 } :=
  ⟨rfl, rfl,
   (C10_submit_response_hides_correctness openDB openDB 7 7 "s2" "s2"
      ⟨31, "B"⟩ ⟨31, "A"⟩ _ _ _ _ rfl rfl rfl).1⟩

/-! ## Claim C9 -/

/-- C9: for any question of the set — mcq, coding or architecture alike, with
any stored correct label — a submission whose selected answer is the sentinel
`NOT_ANSWERED` is accepted as an explicit non-answer, and the `Answer` row it
produces stores `is_correct = false`. -/
theorem C9_sentinel_never_correct (questions : List QuestionRow) (sid : String)
    (sub : AnswerSubmit) (q : QuestionRow)
    (hfind : questions.find? (fun x => x.qid == sub.questionId) = some q)
    (hsent : sub.selectedAnswer = "NOT_ANSWERED") :
    processAnswer questions sid sub =
      .ok { sessionId := sid, questionId := sub.questionId
            selectedAnswer := "NOT_ANSWERED", isCorrect := some false } := by
  unfold processAnswer
  rw [hfind, hsent]
  have htrim : pyStrip "NOT_ANSWERED" = "NOT_ANSWERED" := by decide
  have hlen : ¬(pyLen (pyStrip "NOT_ANSWERED") > MAX_ANSWER_LEN) := by decide
  by_cases hmcq : resolve_question_type q = "mcq" <;>
    simp [hmcq, Except.map, htrim, hlen] <;>
    (intro hcontra; exact absurd hcontra (by decide))

/-- A coding-type question row (the `"type"` tag lives inside the options
JSON), with a correct label equal to the sentinel itself to stress the claim's
"any stored correct label". -/
def codingQuestion : QuestionRow :=
  { qid := 55, questionSetId := some "qs1", jdIdQ := none
    questionText := "Write code"
    options := [("type", .jstr "coding"), ("spec", .jstr "do something")]
    correctAnswer := "NOT_ANSWERED" }

/-- Witness for C9: a sentinel submission against both the MCQ question and
the coding question is stored as not correct. -/
theorem C9_sentinel_never_correct_witness :
    ([mcqQuestion, codingQuestion].find? (fun x => x.qid == (31 : Int))
        = some mcqQuestion ∧
     processAnswer [mcqQuestion, codingQuestion] "s9" ⟨31, "NOT_ANSWERED"⟩ =
       .ok { sessionId := "s9", questionId := 31
             selectedAnswer := "NOT_ANSWERED", isCorrect := some false }) ∧
    ([mcqQuestion, codingQuestion].find? (fun x => x.qid == (55 : Int))
        = some codingQuestion ∧
     processAnswer [mcqQuestion, codingQuestion] "s9" ⟨55, "NOT_ANSWERED"⟩ =
       .ok { sessionId := "s9", questionId := 55
             selectedAnswer := "NOT_ANSWERED", isCorrect := some false }) :=
  ⟨⟨rfl, C9_sentinel_never_correct [mcqQuestion, codingQuestion] "s9"
      ⟨31, "NOT_ANSWERED"⟩ mcqQuestion rfl rfl⟩,
   ⟨rfl, C9_sentinel_never_correct [mcqQuestion, codingQuestion] "s9"
      ⟨55, "NOT_ANSWERED"⟩ codingQuestion rfl rfl⟩⟩

/-! ## Claim C5 -/

/-- Every entry of the `detailed_results` join is backed by a stored `Answer`
row of the session (candidate answer and correctness) joined to its question
(correct answer). -/
theorem detailedResultsFor_mem (db : DB) (sid : String) :
    ∀ d ∈ detailedResultsFor db sid, ∃ a ∈ db.answers,
      a.sessionId = sid ∧ d.yourAnswer = a.selectedAnswer ∧
      d.isCorrect = a.isCorrect ∧
      ∃ qq ∈ db.questions, d.questionId = qq.qid ∧
        d.correctAnswer = qq.correctAnswer := by
  intro d hd
  unfold detailedResultsFor at hd
  rw [List.mem_filterMap] at hd
  obtain ⟨a, ha, heq⟩ := hd
  rw [List.mem_filter] at ha
  obtain ⟨hmem, hsid⟩ := ha
  rw [Option.map_eq_some'] at heq
  obtain ⟨qq, hfind, hmk⟩ := heq
  refine ⟨a, hmem, by simpa using hsid, ?_, ?_, qq,
    List.mem_of_find?_eq_some hfind, ?_, ?_⟩ <;> rw [← hmk]

/-- C5: for a completed session under the delayed policy, a results request
before release returns the 403 pending payload carrying `completed_at` and
`estimated_release_at = completed_at + delay`, and that payload exposes no
`score_percentage`; after release the same request returns the full body —
`score_percentage` plus the per-question detail join of candidate answer,
correct answer and correctness. -/
theorem C5_delayed_release_results (delay : Int) (db : DB) (uid : Int)
    (sid : String) (s : SessionRow) (t : Int)
    (hfind : findSessionFor db sid uid = some s)
    (hdone : s.isCompleted = true)
    (ht : s.completedAt = some t) :
    (s.isScored = false →
       get_test_results delay db uid sid =
         .pending 403 "Results not yet available" t (t + delay) "processing" ∧
       outcomeScore (get_test_results delay db uid sid) = none) ∧
    (∀ r, s.isScored = true → s.scoreReleasedAt = some r →
       get_test_results delay db uid sid =
         .ok { sessionId := sid, scorePercentage := s.scorePercentage
               correctAnswersN := s.correctAnswersN
               totalQuestions := s.totalQuestions
               completedAt := t, scoreReleasedAtR := r
               detailedResults := detailedResultsFor db sid } ∧
       outcomeScore (get_test_results delay db uid sid) = s.scorePercentage ∧
       ∀ d ∈ detailedResultsFor db sid, ∃ a ∈ db.answers,
         a.sessionId = sid ∧ d.yourAnswer = a.selectedAnswer ∧
         d.isCorrect = a.isCorrect ∧
         ∃ qq ∈ db.questions, d.questionId = qq.qid ∧
           d.correctAnswer = qq.correctAnswer) := by
  constructor
  · intro hns
    have hres : get_test_results delay db uid sid =
        .pending 403 "Results not yet available" t (t + delay) "processing" := by
      unfold get_test_results
      rw [hfind]
      simp [hdone, hns, ht]
    exact ⟨hres, by rw [hres]; rfl⟩
  · intro r hsc hr
    have hres : get_test_results delay db uid sid =
        .ok { sessionId := sid, scorePercentage := s.scorePercentage
              correctAnswersN := s.correctAnswersN
              totalQuestions := s.totalQuestions
              completedAt := t, scoreReleasedAtR := r
              detailedResults := detailedResultsFor db sid } := by
      unfold get_test_results
      rw [hfind]
      simp [hdone, hsc, ht, hr]
    exact ⟨hres, by rw [hres]; rfl, detailedResultsFor_mem db sid⟩

/-- The same session after the release transition fired. -/
def releasedSession : SessionRow :=
  { sessionId := "s3", questionSetId := some "qs1", jdIdS := none
    userId := some 7, startedAt := 0, completedAt := some 100
    durationSeconds := some 100, isCompleted := true, isScored := true
    scoreReleasedAt := some 200, totalQuestions := 1, correctAnswersN := 1
    scorePercentage := some 100 }

/-- Database with the released session, its question and its answer row. -/
def releasedDB : DB :=
  { sessions := [releasedSession], questionSets := [], questions := [mcqQuestion]
    answers := [{ sessionId := "s3", questionId := 31
                  selectedAnswer := "B", isCorrect := some true }] }

/-- Witness for C5: one application on the still-pending session, one on the
released session. -/
theorem C5_delayed_release_results_witness :
    (findSessionFor doneDB "s1" 7 = some doneSession ∧
     doneSession.isCompleted = true ∧ doneSession.completedAt = some 100 ∧
     doneSession.isScored = false ∧
     (get_test_results 3600 doneDB 7 "s1" =
        .pending 403 "Results not yet available" 100 (100 + 3600) "processing" ∧
      outcomeScore (get_test_results 3600 doneDB 7 "s1") = none)) ∧
    (findSessionFor releasedDB "s3" 7 = some releasedSession ∧
     releasedSession.isScored = true ∧ releasedSession.scoreReleasedAt = some 200 ∧
     (get_test_results 3600 releasedDB 7 "s3" =
        .ok { sessionId := "s3", scorePercentage := releasedSession.scorePercentage
              correctAnswersN := releasedSession.correctAnswersN
              totalQuestions := releasedSession.totalQuestions
              completedAt := 100, scoreReleasedAtR := 200
              detailedResults := detailedResultsFor releasedDB "s3" } ∧
      outcomeScore (get_test_results 3600 releasedDB 7 "s3") =
        releasedSession.scorePercentage ∧
      ∀ d ∈ detailedResultsFor releasedDB "s3", ∃ a ∈ releasedDB.answers,
        a.sessionId = "s3" ∧ d.yourAnswer = a.selectedAnswer ∧
        d.isCorrect = a.isCorrect ∧
        ∃ qq ∈ releasedDB.questions, d.questionId = qq.qid ∧
          d.correctAnswer = qq.correctAnswer)) :=
  ⟨⟨rfl, rfl, rfl, rfl,
    (C5_delayed_release_results 3600 doneDB 7 "s1" doneSession 100
      rfl rfl rfl).1 rfl⟩,
   ⟨rfl, rfl, rfl,
    (C5_delayed_release_results 3600 releasedDB 7 "s3" releasedSession 100
      rfl rfl rfl).2 200 rfl rfl⟩⟩

/-! ## Claim C3 -/

/-- The two ways an answer reaches storage: the single-answer endpoint of
`test_sessions.py` and the batch endpoint of `questionset_tests.py`. -/
inductive SubmitOp where
  | single (uid : Int) (sid : String) (req : SubmitAnswerRequest)
  | batch (now : Int) (uid : Int) (req : SubmitAllAnswersRequest)

/-- The database after one submission call (the HTTP response discarded). -/
def applyOp (db : DB) : SubmitOp → DB
  | .single uid sid req => (submit_answer db uid sid req).2
  | .batch now uid req => (submit_questionset_answers now db uid req).2

/-- The database after a sequence of submission calls. -/
def applyOps (db : DB) : List SubmitOp → DB
  | [] => db
  | op :: rest => applyOps (applyOp db op) rest

theorem uniquePairs_append_single (l : List AnswerRow) (x : AnswerRow)
    (h : uniquePairs l)
    (hx : ∀ a ∈ l, ¬(a.sessionId = x.sessionId ∧ a.questionId = x.questionId)) :
    uniquePairs (l ++ [x]) := by
  rw [uniquePairs, List.pairwise_append]
  refine ⟨h, List.pairwise_singleton _ _, fun a ha b hb => ?_⟩
  rw [List.mem_singleton] at hb
  subst hb
  exact hx a ha

theorem uniquePairs_append_ok (l new : List AnswerRow) (h : uniquePairs l)
    (hok : insertOk l new) : uniquePairs (l ++ new) := by
  rw [uniquePairs, List.pairwise_append]
  refine ⟨h, hok.1, fun a ha b hb hab => ?_⟩
  exact hok.2 b hb a ha ⟨hab.1.symm, hab.2.symm⟩

theorem submit_answer_preserves (db : DB) (uid : Int) (sid : String)
    (req : SubmitAnswerRequest) (h : uniquePairs db.answers) :
    uniquePairs (submit_answer db uid sid req).2.answers ∧
    ∃ new, (submit_answer db uid sid req).2.answers = db.answers ++ new := by
  unfold submit_answer
  repeat' split
  all_goals try exact ⟨h, [], by simp⟩
  refine ⟨?_, [_], rfl⟩
  refine uniquePairs_append_single _ _ h (fun a ha hpair => ?_)
  have hnone : db.answers.find?
      (fun a => a.sessionId == sid && a.questionId == req.questionId) = none := by
    assumption
  have hp := List.find?_eq_none.mp hnone a ha
  apply hp
  simp only [Bool.and_eq_true, beq_iff_eq]
  exact ⟨hpair.1, hpair.2⟩

theorem submit_questionset_answers_preserves (now : Int) (db : DB) (uid : Int)
    (req : SubmitAllAnswersRequest) (h : uniquePairs db.answers) :
    uniquePairs (submit_questionset_answers now db uid req).2.answers ∧
    ∃ new, (submit_questionset_answers now db uid req).2.answers
      = db.answers ++ new := by
  unfold submit_questionset_answers
  repeat' split
  all_goals try exact ⟨h, [], by simp⟩
  all_goals exact ⟨uniquePairs_append_ok _ _ h (by assumption), _, rfl⟩

theorem applyOp_preserves (db : DB) (op : SubmitOp) (h : uniquePairs db.answers) :
    uniquePairs (applyOp db op).answers ∧
    ∃ new, (applyOp db op).answers = db.answers ++ new := by
  cases op with
  | single uid sid req => exact submit_answer_preserves db uid sid req h
  | batch now uid req => exact submit_questionset_answers_preserves now db uid req h

theorem applyOps_preserves (ops : List SubmitOp) (db : DB)
    (h : uniquePairs db.answers) :
    uniquePairs (applyOps db ops).answers ∧
    ∃ new, (applyOps db ops).answers = db.answers ++ new := by
  induction ops generalizing db with
  | nil => exact ⟨h, [], by simp [applyOps]⟩
  | cons op rest ih =>
    obtain ⟨h1, n1, e1⟩ := applyOp_preserves db op h
    obtain ⟨h2, n2, e2⟩ := ih (applyOp db op) h1
    exact ⟨h2, n1 ++ n2, by rw [applyOps, e2, e1, List.append_assoc]⟩

/-- Resubmission of an already-stored `(session_id, question_id)` pair through
the single-answer endpoint is rejected and mutates nothing. -/
theorem submit_answer_dup_rejected (db : DB) (uid : Int) (sid : String)
    (req : SubmitAnswerRequest)
    (hdup : ∃ a ∈ db.answers,
      a.sessionId = sid ∧ a.questionId = req.questionId) :
    (submit_answer db uid sid req).2 = db ∧
    ∀ r, (submit_answer db uid sid req).1 ≠ SubmitOutcome.ok r := by
  obtain ⟨a, ha, hsid, hqid⟩ := hdup
  unfold submit_answer
  split
  · exact ⟨rfl, by intro r hr; exact absurd hr (by simp)⟩
  · split
    · exact ⟨rfl, by intro r hr; exact absurd hr (by simp)⟩
    · split
      · exact ⟨rfl, by intro r hr; exact absurd hr (by simp)⟩
      · exfalso
        have hnone : db.answers.find?
            (fun x => x.sessionId == sid && x.questionId == req.questionId)
              = none := by assumption
        apply List.find?_eq_none.mp hnone a ha
        simp only [Bool.and_eq_true, beq_iff_eq]
        exact ⟨hsid, hqid⟩

/-- C3: starting from any state satisfying the `(session_id, question_id)`
uniqueness constraint, any sequence of single and batch submissions — a batch
naming the same question twice included — keeps at most one `Answer` row per
pair, only ever appends rows (an existing row is never updated or
overwritten), and a single-endpoint resubmission for a stored pair is rejected
with no state change. -/
theorem C3_answer_rows_unique (db : DB) (ops : List SubmitOp)
    (h : uniquePairs db.answers) :
    uniquePairs (applyOps db ops).answers ∧
    (∃ new, (applyOps db ops).answers = db.answers ++ new) ∧
    ∀ uid sid req,
      (∃ a ∈ db.answers, a.sessionId = sid ∧ a.questionId = req.questionId) →
      (submit_answer db uid sid req).2 = db ∧
      ∀ r, (submit_answer db uid sid req).1 ≠ SubmitOutcome.ok r := by
  obtain ⟨h1, h2⟩ := applyOps_preserves ops db h
  exact ⟨h1, h2, fun uid sid req hdup => submit_answer_dup_rejected db uid sid req hdup⟩

/-- An open question-set-based session for the batch endpoint. -/
def qsSession : SessionRow :=
  { sessionId := "s4", questionSetId := some "qs1", jdIdS := none
    userId := some 7, startedAt := 0, completedAt := none
    durationSeconds := none, isCompleted := false, isScored := false
    scoreReleasedAt := none, totalQuestions := 1, correctAnswersN := 0
    scorePercentage := none }

/-- The question set backing it. -/
def qsRow : QuestionSetRow :=
  { questionSetId := "qs1", skill := "python", level := "beginner"
    totalQuestions := 1 }

/-- The MCQ question attached to the question set. -/
def mcqQuestionQS : QuestionRow := { mcqQuestion with questionSetId := some "qs1" }

/-- Database for the batch scenario. -/
def batchDB : DB :=
  { sessions := [qsSession], questionSets := [qsRow]
    questions := [mcqQuestionQS], answers := [] }

/-- A single submission for question 31 followed by a batch naming question 31
twice. -/
def dupOps : List SubmitOp :=
  [.single 7 "s4" ⟨31, "A"⟩,
   .batch 50 7 { sessionId := "s4", answers := [⟨31, "A"⟩, ⟨31, "B"⟩] }]

/-- Witness for C3 on the concrete duplicate-submission scenario. -/
theorem C3_answer_rows_unique_witness :
    uniquePairs batchDB.answers ∧
    (uniquePairs (applyOps batchDB dupOps).answers ∧
     (∃ new, (applyOps batchDB dupOps).answers = batchDB.answers ++ new) ∧
     ∀ uid sid req,
       (∃ a ∈ batchDB.answers,
         a.sessionId = sid ∧ a.questionId = req.questionId) →
       (submit_answer batchDB uid sid req).2 = batchDB ∧
       ∀ r, (submit_answer batchDB uid sid req).1 ≠ SubmitOutcome.ok r) :=
  ⟨by decide, C3_answer_rows_unique batchDB dupOps (by decide)⟩

/-! ## Claim C6 -/

theorem retrievalBelowMin_iff (minR : ℚ) (ts : Option ℚ) :
    retrievalBelowMin minR ts = true ↔
      minR ≠ 0 ∧ (ts = none ∨ ∃ q, ts = some q ∧ q < minR) := by
  unfold retrievalBelowMin
  cases ts <;> simp

/-- The per-item condition under which the RAG loop degrades to the LLM
fallback, as the amended claim words it: `min_retrieval` is set (nonzero) and
either no snippet carries a numeric score or the best numeric score is below
it, or the scope-filtered retrieval result is empty. -/
def fallbackCondition (minRetrieval : ℚ) (snips : List RetrievalHit) : Prop :=
  (minRetrieval ≠ 0 ∧
    (topScoreOf snips = none ∨ ∃ q, topScoreOf snips = some q ∧ q < minRetrieval))
  ∨ snips = []

/-- C6 (amended): in rag mode, a gate-passing item is persisted with
`source_type = "llm"` and `source_meta = {fallback: true, ...}` exactly when
the fallback condition holds — `min_retrieval_score` set and no numeric score
reaching it (including the case that no snippet has a numeric score at all),
or no in-scope snippet; otherwise it is persisted with `source_type = "rag"`
and `source_meta` listing the snippet ids and the top score. -/
theorem C6_rag_fallback_policy (aid : Option String) (minRetrieval : ℚ)
    (env : RagItemEnv) (d : PyDict)
    (hp : env.parsed = some d)
    (hqc : (!d.isEmpty && basic_qc d) = true) :
    (fallbackCondition minRetrieval (scopedSnippets aid env.snippets) →
       ragGenerateItem aid minRetrieval env =
         some (persistRow d aid (some "llm") (some (.llmFallback aid)))) ∧
    (¬ fallbackCondition minRetrieval (scopedSnippets aid env.snippets) →
       ragGenerateItem aid minRetrieval env =
         some (persistRow d aid (some "rag")
           (some (.ragMeta
             ((scopedSnippets aid env.snippets).map (fun s => dictGet s.1 "id"))
             aid (topScoreOf (scopedSnippets aid env.snippets)))))) := by
  constructor
  · intro hfb
    unfold ragGenerateItem
    rw [hp]
    rcases hfb with ⟨hmr, hts⟩ | hempty
    · have hbm : retrievalBelowMin minRetrieval
          (topScoreOf (scopedSnippets aid env.snippets)) = true :=
        (retrievalBelowMin_iff _ _).mpr ⟨hmr, hts⟩
      simp [hbm, hqc]
    · cases hbm : retrievalBelowMin minRetrieval
          (topScoreOf (scopedSnippets aid env.snippets)) <;>
        simp [hbm, hempty, hqc]
  · intro hnfb
    have hbm : retrievalBelowMin minRetrieval
        (topScoreOf (scopedSnippets aid env.snippets)) = false := by
      rcases hb : retrievalBelowMin minRetrieval
          (topScoreOf (scopedSnippets aid env.snippets)) with _ | _
      · rfl
      · exact absurd (Or.inl ((retrievalBelowMin_iff _ _).mp hb)) hnfb
    have hne : scopedSnippets aid env.snippets ≠ [] := fun he => hnfb (Or.inr he)
    unfold ragGenerateItem
    rw [hp]
    simp [hbm, hqc, List.isEmpty_iff, hne]

/-- A snippet dict carrying an id but paired with a `None` relevance score. -/
def unscored_snippet : PyDict :=
  [("id", .jstr "s1"), ("text", .jstr "Python is a language")]

/-- A parsed item that passes the quality gate. -/
def goodItem : PyDict :=
  [("question_text", .jstr "What is Python primarily used for?"),
   ("options", .jobj [("A", .jstr "Web development"), ("B", .jstr "Cooking"),
                      ("C", .jstr "Car repair"), ("D", .jstr "Gardening")]),
   ("correct_answer", .jstr "A")]

/-- Retrieval returned one (in-scope) snippet, but with no numeric score. -/
def unscoredEnv : RagItemEnv :=
  { snippets := [(unscored_snippet, none)], parsed := some goodItem }

/-- C6 counterexample: with `min_retrieval = 1` set indeed, retrieval returning
one in-scope snippet, and no numeric score present (so no "best numeric
retrieval score" is below the minimum), the claim's fallback clause does not
apply and the claim requires a grounded `source_type = "rag"` item; the code
nevertheless empties the snippet list (`top_score is None`) and persists the
item as `source_type = "llm"` with `fallback = true` metadata. -/
theorem C6_counterexample_unscored_snippet :
    scopedSnippets none unscoredEnv.snippets = [(unscored_snippet, none)] ∧
    [(unscored_snippet, (none : Option ℚ))] ≠ [] ∧
    (unscoredEnv.snippets.filterMap Prod.snd) = [] ∧
    (1 : ℚ) ≠ 0 ∧
    (ragGenerateItem none 1 unscoredEnv).map (fun r => r.sourceType)
      = some (some "llm") ∧
    (ragGenerateItem none 1 unscoredEnv).map (fun r => r.sourceMeta)
      = some (some (.llmFallback none)) ∧
    ¬((ragGenerateItem none 1 unscoredEnv).map (fun r => r.sourceType)
      = some (some "rag")) :=
  ⟨rfl, by simp, rfl, by norm_num, rfl, rfl, by
    intro hcontra
    have h1 : (ragGenerateItem none 1 unscoredEnv).map (fun r => r.sourceType)
        = some (some "llm") := rfl
    rw [h1] at hcontra
    simp at hcontra⟩

/-- Witness for C6 on concrete inputs: an empty retrieval result falls back to
LLM provenance, and a well-scored snippet yields RAG provenance. -/
theorem C6_rag_fallback_policy_witness :
    (({ snippets := [], parsed := some goodItem } : RagItemEnv).parsed
        = some goodItem ∧
     (!goodItem.isEmpty && basic_qc goodItem) = true ∧
     ragGenerateItem none 0 { snippets := [], parsed := some goodItem } =
       some (persistRow goodItem none (some "llm")
         (some (.llmFallback none)))) ∧
    (({ snippets := [(unscored_snippet, some 9)], parsed := some goodItem }
        : RagItemEnv).parsed = some goodItem ∧
     ragGenerateItem none 0
         { snippets := [(unscored_snippet, some 9)], parsed := some goodItem } =
       some (persistRow goodItem none (some "rag")
         (some (.ragMeta [some (.jstr "s1")] none (some 9))))) :=
  ⟨⟨rfl, by decide,
    (C6_rag_fallback_policy none 0 { snippets := [], parsed := some goodItem }
      goodItem rfl (by decide)).1 (Or.inr rfl)⟩,
   ⟨rfl,
    by
      have h := (C6_rag_fallback_policy none 0
        { snippets := [(unscored_snippet, some 9)], parsed := some goodItem }
        goodItem rfl (by decide)).2
      have hres := h (by
        intro hfb
        rcases hfb with ⟨hmr, _⟩ | hempty
        · exact hmr rfl
        · exact absurd hempty (by simp [scopedSnippets]))
      simpa [scopedSnippets, topScoreOf, unscored_snippet] using hres⟩⟩

/-! ## Claim C7 -/

theorem sameKeySet_iff (ks target : List String) :
    sameKeySet ks target = true ↔ ∀ k, k ∈ ks ↔ k ∈ target := by
  unfold sameKeySet
  rw [Bool.and_eq_true, List.all_eq_true, List.all_eq_true]
  constructor
  · rintro ⟨h1, h2⟩ k
    constructor
    · intro hk
      have := h1 k hk
      simpa using this
    · intro hk
      have := h2 k hk
      simpa using this
  · intro h
    constructor
    · intro k hk
      simpa using (h k).mp hk
    · intro k hk
      simpa using (h k).mpr hk

/-- The quality gate spelled out the way the claim states it: `question_text`
is a (string) value with nonempty strip, the (normalized) options value is an
object whose key set is exactly `{A, B, C, D}`, and `correct_answer` is one of
those four labels. -/
theorem basic_qc_iff (d : PyDict) :
    basic_qc d = true ↔
      (∃ s, dictGet d "question_text" = some (.jstr s) ∧ pyStrip s ≠ "") ∧
      (∃ fs, qcOptions d = .jobj fs ∧
        ∀ k, k ∈ fs.map Prod.fst ↔ k ∈ (["A", "B", "C", "D"] : List String)) ∧
      (∃ c, dictGet d "correct_answer" = some (.jstr c) ∧
        (c = "A" ∨ c = "B" ∨ c = "C" ∨ c = "D")) := by
  unfold basic_qc
  rw [Bool.and_eq_true, Bool.and_eq_true]
  constructor
  · rintro ⟨⟨h1, h2⟩, h3⟩
    refine ⟨?_, ?_, ?_⟩
    · rcases hq : dictGet d "question_text" with _ | v
      · rw [hq] at h1; cases h1
      · cases v <;> rw [hq] at h1 <;> try cases h1
        rename_i s
        exact ⟨s, rfl, by simpa using h1⟩
    · rcases ho : qcOptions d with _ | _ | _ | _ | _ | fs <;> rw [ho] at h2 <;>
        try cases h2
      exact ⟨fs, rfl, (sameKeySet_iff _ _).mp h2⟩
    · rcases hc : dictGet d "correct_answer" with _ | v
      · rw [hc] at h3; cases h3
      · cases v <;> rw [hc] at h3 <;> try cases h3
        rename_i c
        exact ⟨c, rfl, by simpa using h3⟩
  · rintro ⟨⟨s, hq, hs⟩, ⟨fs, ho, hks⟩, ⟨c, hc, hcl⟩⟩
    rw [hq, ho, hc]
    exact ⟨⟨by simpa using hs, (sameKeySet_iff _ _).mpr hks⟩, by simpa using hcl⟩

theorem llmGenerateItem_isSome_iff (aid : Option String)
    (parsed : Option PyDict) :
    (llmGenerateItem aid parsed).isSome = true ↔
      ∃ d, parsed = some d ∧ d ≠ [] ∧ basic_qc d = true := by
  unfold llmGenerateItem
  cases parsed with
  | none => simp
  | some d =>
    dsimp only
    by_cases hd : (!d.isEmpty && basic_qc d) = true
    · rw [if_pos hd]
      rw [Bool.and_eq_true, Bool.not_eq_true', List.isEmpty_eq_false] at hd
      simp only [Option.isSome_some, true_iff]
      exact ⟨d, rfl, hd.1, hd.2⟩
    · rw [if_neg hd]
      rw [Bool.and_eq_true, Bool.not_eq_true', List.isEmpty_eq_false] at hd
      simp only [Option.isSome_none, Bool.false_eq_true, false_iff]
      rintro ⟨d', hd', hne, hqc⟩
      cases Option.some.inj hd'
      exact hd ⟨hne, hqc⟩

theorem ragGenerateItem_isSome_iff (aid : Option String) (minRetrieval : ℚ)
    (e : RagItemEnv) :
    (ragGenerateItem aid minRetrieval e).isSome = true ↔
      ∃ d, e.parsed = some d ∧ d ≠ [] ∧ basic_qc d = true := by
  unfold ragGenerateItem
  cases hp : e.parsed with
  | none => simp
  | some d =>
    dsimp only
    by_cases hd : (!d.isEmpty && basic_qc d) = true
    · rw [if_pos hd]
      rw [Bool.and_eq_true, Bool.not_eq_true', List.isEmpty_eq_false] at hd
      simp only [Option.isSome_some, true_iff]
      exact ⟨d, rfl, hd.1, hd.2⟩
    · rw [if_neg hd]
      rw [Bool.and_eq_true, Bool.not_eq_true', List.isEmpty_eq_false] at hd
      simp only [Option.isSome_none, Bool.false_eq_true, false_iff]
      rintro ⟨d', hd', hne, hqc⟩
      cases Option.some.inj hd'
      exact hd ⟨hne, hqc⟩

theorem nRagOf_bounds (count : Nat) (mode : String) (ragPct : Int)
    (h0 : 0 ≤ ragPct) (h100 : ragPct ≤ 100) :
    0 ≤ nRagOf count mode ragPct ∧ nRagOf count mode ragPct ≤ (count : Int) := by
  unfold nRagOf
  split
  · constructor
    · exact le_max_left 0 _
    · rw [max_le_iff]
      refine ⟨Int.ofNat_nonneg count, ?_⟩
      apply pyRound_le_int
      have hc : (0 : ℚ) ≤ (count : ℚ) := by positivity
      have hr : ((ragPct : ℚ) / 100) ≤ 1 := by
        rw [div_le_one (by norm_num)]
        exact_mod_cast h100
      calc (count : ℚ) * ((ragPct : ℚ) / 100) ≤ (count : ℚ) * 1 :=
            mul_le_mul_of_nonneg_left hr hc
        _ = ((count : Int) : ℚ) := by push_cast; ring
  · exact ⟨Int.ofNat_nonneg count, le_refl _⟩

/-- C7: for every invocation of `generate_questions` (any mode, `rag_pct`
within its 0–100 range), at most `count` items are persisted, and — at the
item level, in every loop — an item is persisted exactly when it parsed and
passed `_basic_qc`; the gate itself demands a nonempty `question_text` string,
an options object whose keys are exactly `{A, B, C, D}`, and a
`correct_answer` among those labels.  Failing items are dropped with no retry
(each loop consumes its environment exactly once), so the persisted list may
be shorter than `count`. -/
theorem C7_quality_gate_controls_persistence (aid : Option String)
    (count : Nat) (mode : String) (ragPct : Int) (minRetrieval : ℚ)
    (env : GenEnv) (h0 : 0 ≤ ragPct) (h100 : ragPct ≤ 100) :
    (generate_questions aid count mode ragPct minRetrieval env).length ≤ count ∧
    (∀ parsed, (llmGenerateItem aid parsed).isSome = true ↔
        ∃ d, parsed = some d ∧ d ≠ [] ∧ basic_qc d = true) ∧
    (∀ e : RagItemEnv, (ragGenerateItem aid minRetrieval e).isSome = true ↔
        ∃ d, e.parsed = some d ∧ d ≠ [] ∧ basic_qc d = true) ∧
    (∀ d : PyDict, basic_qc d = true ↔
      (∃ s, dictGet d "question_text" = some (.jstr s) ∧ pyStrip s ≠ "") ∧
      (∃ fs, qcOptions d = .jobj fs ∧
        ∀ k, k ∈ fs.map Prod.fst ↔ k ∈ (["A", "B", "C", "D"] : List String)) ∧
      (∃ c, dictGet d "correct_answer" = some (.jstr c) ∧
        (c = "A" ∨ c = "B" ∨ c = "C" ∨ c = "D"))) := by
  refine ⟨?_, fun parsed => llmGenerateItem_isSome_iff aid parsed,
    fun e => ragGenerateItem_isSome_iff aid minRetrieval e,
    fun d => basic_qc_iff d⟩
  unfold generate_questions
  split
  · calc ((env.llmParsed.take count).filterMap (llmGenerateItem aid)).length
        ≤ (env.llmParsed.take count).length := List.length_filterMap_le _ _
      _ ≤ count := List.length_take_le _ _
  · obtain ⟨hr0, hrc⟩ := nRagOf_bounds count mode ragPct h0 h100
    rw [List.length_append]
    have h1 : ((env.ragItems.take (nRagOf count mode ragPct).toNat).filterMap
        (ragGenerateItem aid minRetrieval)).length
        ≤ (nRagOf count mode ragPct).toNat :=
      le_trans (List.length_filterMap_le _ _) (List.length_take_le _ _)
    split
    · -- mix mode: n_llm = count - n_rag
      have h2 : ((env.llmParsed.take ((count : Int) -
          nRagOf count mode ragPct).toNat).filterMap
          (llmGenerateItem aid)).length
          ≤ ((count : Int) - nRagOf count mode ragPct).toNat :=
        le_trans (List.length_filterMap_le _ _) (List.length_take_le _ _)
      have hsum : (nRagOf count mode ragPct).toNat +
          ((count : Int) - nRagOf count mode ragPct).toNat = count := by
        omega
      omega
    · -- other modes: n_llm = 0
      have h2 : ((env.llmParsed.take (0 : Int).toNat).filterMap
          (llmGenerateItem aid)).length ≤ (0 : Int).toNat :=
        le_trans (List.length_filterMap_le _ _) (List.length_take_le _ _)
      omega

/-- Witness for C7 in mix mode with `rag_pct = 70`, one gate-passing and one
gate-failing item in the environment. -/
theorem C7_quality_gate_controls_persistence_witness :
    ((0 : Int) ≤ 70 ∧ (70 : Int) ≤ 100) ∧
    ((generate_questions none 10 "mix" 70 0
        { ragItems := [{ snippets := [], parsed := some goodItem },
                       { snippets := [], parsed := none }]
          llmParsed := [some [], some goodItem] }).length ≤ 10 ∧
     (∀ parsed, (llmGenerateItem none parsed).isSome = true ↔
        ∃ d, parsed = some d ∧ d ≠ [] ∧ basic_qc d = true) ∧
     (∀ e : RagItemEnv, (ragGenerateItem none 0 e).isSome = true ↔
        ∃ d, e.parsed = some d ∧ d ≠ [] ∧ basic_qc d = true) ∧
     (∀ d : PyDict, basic_qc d = true ↔
      (∃ s, dictGet d "question_text" = some (.jstr s) ∧ pyStrip s ≠ "") ∧
      (∃ fs, qcOptions d = .jobj fs ∧
        ∀ k, k ∈ fs.map Prod.fst ↔ k ∈ (["A", "B", "C", "D"] : List String)) ∧
      (∃ c, dictGet d "correct_answer" = some (.jstr c) ∧
        (c = "A" ∨ c = "B" ∨ c = "C" ∨ c = "D")))) :=
  ⟨⟨by decide, by decide⟩,
   C7_quality_gate_controls_persistence none 10 "mix" 70 0
     { ragItems := [{ snippets := [], parsed := some goodItem },
                    { snippets := [], parsed := none }]
       llmParsed := [some [], some goodItem] } (by decide) (by decide)⟩

end AILearn
